import Mathlib

/-!
Verification of the multi-LLM evaluation consolidation engine
(`chat_eval`): shallow embedding of the orchestrator's score
consolidation, outlier detection, consistency validation and confidence
calculation, together with theorems settling the specification claims.

Numbers are modelled as rationals (`ℚ`) wherever the source only uses
field arithmetic and comparisons; `Real.sqrt` / `Real.log` are used for
the source's `Math.sqrt` / `Math.log`.  The JavaScript presentation
rounding `parseFloat(x.toFixed(3))` applied to some returned fields is
not modelled; theorems speak about the value computed before that
formatting step.
-/

/-- Arithmetic mean, as in the repeated source idiom
`values.reduce((sum, val) => sum + val, 0) / n`.  For `[]` this is
`0 / 0 = 0` in `ℚ` (the source never takes a mean of an empty list on
the paths modelled here). -/
def listMean (values : List ℚ) : ℚ :=
  values.sum / values.length

/-- Population variance, as in the source idiom
`values.reduce((sum, val) => sum + Math.pow(val - mean, 2), 0) / n`. -/
def listVariance (values : List ℚ) : ℚ :=
  ((values.map (fun v => (v - listMean values) ^ 2)).sum) / values.length

/-- `ThresholdConfig['outlier_detection']`: the IQR multiplier `k`
(default 1.5) and the minimum sample size (default 3), loaded from
external configuration. -/
structure OutlierConfig where
  multiplier : ℚ
  min_samples : ℕ

/-- `OutlierDetector.calculateQuartile` (outlier-detector.ts:185-197):
linear interpolation at rank position `(n - 1) * percentile` between the
entries at `Math.floor(position)` and `Math.ceil(position)`. -/
def calculateQuartile (sortedValues : List ℚ) (percentile : ℚ) : ℚ :=
  let n := sortedValues.length
  let position : ℚ := ((n : ℚ) - 1) * percentile
  let lowerIndex : ℤ := ⌊position⌋
  let upperIndex : ℤ := ⌈position⌉
  if lowerIndex = upperIndex then
    sortedValues.getD lowerIndex.toNat 0
  else
    let fraction : ℚ := position - (lowerIndex : ℚ)
    sortedValues.getD lowerIndex.toNat 0 * (1 - fraction) +
      sortedValues.getD upperIndex.toNat 0 * fraction

/-- The `values.forEach((value, index) => ...)` loop of
`OutlierDetector.detectOutliers` (outlier-detector.ts:56-63): walking the
original (unsorted) input, pushing each value outside the bounds onto
`outliers` together with its index, and each other value onto
`filteredValues`.  Returns `(outliers, outlierIndices, filteredValues)`;
`i` is the index of the first element of the remaining list. -/
def classifyValues (lowerBound upperBound : ℚ) :
    ℕ → List ℚ → List ℚ × List ℕ × List ℚ
  | _, [] => ([], [], [])
  | i, v :: rest =>
    let r := classifyValues lowerBound upperBound (i + 1) rest
    if v < lowerBound ∨ upperBound < v then
      (v :: r.1, i :: r.2.1, r.2.2)
    else
      (r.1, r.2.1, v :: r.2.2)

/-- Result record of `OutlierDetector.detectOutliers`
(outlier-detector.ts:17-30). -/
structure OutlierResult where
  outliers : List ℚ
  outlierIndices : List ℕ
  q1 : ℚ
  q3 : ℚ
  iqr : ℚ
  lowerBound : ℚ
  upperBound : ℚ
  outlierCount : ℕ
  outlierPercentage : ℚ
  filteredValues : List ℚ
deriving DecidableEq

/-- `OutlierDetector.getEmptyResult` (outlier-detector.ts:288-303):
below the minimum sample size nothing is flagged and `filteredValues`
is a copy of the input. -/
def getEmptyResult (values : List ℚ) : OutlierResult :=
  { outliers := []
    outlierIndices := []
    q1 := 0, q3 := 0, iqr := 0
    lowerBound := 0, upperBound := 0
    outlierCount := 0, outlierPercentage := 0
    filteredValues := values }

/-- `OutlierDetector.detectOutliers` (outlier-detector.ts:31-81):
sort a copy of the input, compute `Q1`/`Q3` by `calculateQuartile`,
derive the bounds `Q1 - k*IQR` / `Q3 + k*IQR`, and classify every input
value against them (in original input order). -/
def detectOutliers (cfg : OutlierConfig) (values : List ℚ) : OutlierResult :=
  if values.length < cfg.min_samples then
    getEmptyResult values
  else
    let sortedValues := List.insertionSort (· ≤ ·) values
    let q1 := calculateQuartile sortedValues (1/4)
    let q3 := calculateQuartile sortedValues (3/4)
    let iqr := q3 - q1
    let lowerBound := q1 - cfg.multiplier * iqr
    let upperBound := q3 + cfg.multiplier * iqr
    let r := classifyValues lowerBound upperBound 0 values
    { outliers := r.1
      outlierIndices := r.2.1
      q1 := q1, q3 := q3, iqr := iqr
      lowerBound := lowerBound, upperBound := upperBound
      outlierCount := r.1.length
      outlierPercentage := ((r.1.length : ℚ) / values.length) * 100
      filteredValues := r.2.2 }

/-- Modelled from the spec's words for §4.4: the quartile "via linear
interpolation on rank position `(n-1)*p`", written in the standard
`x_⌊pos⌋ + frac * (x_⌊pos⌋₊₁ - x_⌊pos⌋)` form, to be compared with the
source's `calculateQuartile`. -/
def interpolatedQuantile (sortedValues : List ℚ) (p : ℚ) : ℚ :=
  let pos : ℚ := ((sortedValues.length : ℚ) - 1) * p
  let i := (⌊pos⌋).toNat
  let frac : ℚ := pos - (⌊pos⌋ : ℚ)
  sortedValues.getD i 0 + frac * (sortedValues.getD (i + 1) 0 - sortedValues.getD i 0)

/-- `ProviderResult` (types, part_000): one provider's outcome as seen by
the orchestrator.  `scores` is the flat `Record<string, number>` produced
by `extractScores`, modelled as an association list; fields not used by
any claim (model, responseTime, tokens, cost) are omitted. -/
structure ProviderResult where
  name : String
  scores : List (String × ℚ)
  success : Bool
  error : Option String
deriving DecidableEq

/-- JavaScript `a || d` for a possibly-absent number `a`: an absent or
zero (falsy) value falls back to the default. -/
def jsOr (v : Option ℚ) (d : ℚ) : ℚ :=
  match v with
  | none => d
  | some x => if x = 0 then d else x

/-- JavaScript `a || b` for two possibly-absent numbers (as in
`result.scores.total_score || result.scores.총점`). -/
def jsSelect (a b : Option ℚ) : Option ℚ :=
  match a with
  | none => b
  | some x => if x = 0 then b else some x

/-- The numeric values of score key `key` across `results`:
`results.map(r => r.scores[key]).filter(v => typeof v === 'number' && !isNaN(v))`
(evaluation-orchestrator.ts:225-227 and 279-281). -/
def scoresForKey (results : List ProviderResult) (key : String) : List ℚ :=
  results.filterMap (fun r => r.scores.lookup key)

/-- The set of score keys appearing across `results`
(`const scoreKeys = new Set<string>()` loops,
evaluation-orchestrator.ts:219-222): every distinct key, once. -/
def scoreKeys (results : List ProviderResult) : List String :=
  ((results.map (fun r => r.scores.map Prod.fst)).flatten).dedup

/-- The inlier filter of `EvaluationOrchestrator.consolidateScores`
(evaluation-orchestrator.ts:236-245) for a sorted sample of length ≥ 3:
`Q1`/`Q3` are the elements at `Math.floor(n * 0.25)` / `Math.floor(n * 0.75)`
and the survivors are the values within `[Q1 - 1.5*IQR, Q3 + 1.5*IQR]`. -/
def consolidationInliers (sortedValues : List ℚ) : List ℚ :=
  let n := sortedValues.length
  let q1 := sortedValues.getD (n / 4) 0
  let q3 := sortedValues.getD (3 * n / 4) 0
  let iqr := q3 - q1
  let lowerBound := q1 - 3/2 * iqr
  let upperBound := q3 + 3/2 * iqr
  sortedValues.filter (fun v => lowerBound ≤ v ∧ v ≤ upperBound)

/-- Per-key consolidation of `EvaluationOrchestrator.consolidateScores`
(evaluation-orchestrator.ts:224-256): sort the numeric values; one value
is used as-is, two are averaged, three or more go through the inline IQR
filter and the inliers are averaged — falling back to the middle element
of the sorted sample (`values[Math.floor(n / 2)]`) when every value was
filtered out.  `none` corresponds to the key being absent from the
consolidated record. -/
def consolidateValues (values : List ℚ) : Option ℚ :=
  let sorted := List.insertionSort (· ≤ ·) values
  if sorted.length = 0 then none
  else if sorted.length = 1 then some (sorted.getD 0 0)
  else if sorted.length = 2 then some ((sorted.getD 0 0 + sorted.getD 1 0) / 2)
  else
    let filteredValues := consolidationInliers sorted
    if 0 < filteredValues.length then
      some (filteredValues.sum / filteredValues.length)
    else
      some (sorted.getD (sorted.length / 2) 0)

/-- `EvaluationOrchestrator.consolidateScores` restricted to one key:
the consolidated value the orchestrator would store under `key`. -/
def consolidatedScore (results : List ProviderResult) (key : String) : Option ℚ :=
  consolidateValues (scoresForKey results key)

/-- `EvaluationOrchestrator.validateConsistency`
(evaluation-orchestrator.ts:264-305): with fewer than 2 results the
consistency is 1.0; otherwise the population variances of all keys with
at least 2 numeric values are averaged and turned into
`max(0, 1 - averageVariance / 2)`. -/
def validateConsistencyOrch (results : List ProviderResult) : ℚ :=
  if results.length < 2 then 1
  else
    let variances :=
      (scoreKeys results).filterMap (fun key =>
        let values := scoresForKey results key
        if 2 ≤ values.length then some (listVariance values) else none)
    let averageVariance :=
      if 0 < variances.length then variances.sum / variances.length else 0
    max 0 (1 - averageVariance / 2)

/-- `EvaluationOrchestrator.detectOutliers`
(evaluation-orchestrator.ts:310-339): with fewer than 3 results (or
fewer than 3 numeric total scores) nothing is flagged; otherwise the
sorted total scores are tested against floor-indexed `Q1`/`Q3` bounds
and the indices (into the sorted list) of the values outside them are
returned. -/
def detectOutliersOrch (multiplier : ℚ) (results : List ProviderResult) : List ℕ :=
  if results.length < 3 then []
  else
    let totalScores :=
      List.insertionSort (· ≤ ·)
        (results.filterMap (fun r =>
          jsSelect (r.scores.lookup "total_score") (r.scores.lookup "총점")))
    if totalScores.length < 3 then []
    else
      let n := totalScores.length
      let q1 := totalScores.getD (n / 4) 0
      let q3 := totalScores.getD (3 * n / 4) 0
      let iqr := q3 - q1
      let lowerBound := q1 - multiplier * iqr
      let upperBound := q3 + multiplier * iqr
      (List.range n).filter (fun i =>
        totalScores.getD i 0 < lowerBound ∨ upperBound < totalScores.getD i 0)

/-- `ThresholdConfig['confidence']['factors']`: the three component
weights, loaded from external configuration (spec: they sum to 1.0). -/
structure ConfidenceFactors where
  consistency_weight : ℚ
  outlier_weight : ℚ
  sample_size_weight : ℚ
deriving DecidableEq

/-- `EvaluationOrchestrator.calculateConfidence`
(evaluation-orchestrator.ts:344-361): weighted sum of the consistency,
outlier and sample-size components, clamped to `[0, 1]`.  The source's
`outlierCount / totalResults` is only ever evaluated with
`totalResults ≥ 1` (the successful-result count). -/
def calculateConfidenceOrch (factors : ConfidenceFactors) (consistency : ℚ)
    (outlierCount totalResults : ℕ) : ℚ :=
  let consistencyContribution := consistency * factors.consistency_weight
  let outlierRatio : ℚ := (outlierCount : ℚ) / (totalResults : ℚ)
  let outlierContribution := max 0 (1 - outlierRatio) * factors.outlier_weight
  let sampleSizeRatio : ℚ := min 1 ((totalResults : ℚ) / 3)
  let sampleSizeContribution := sampleSizeRatio * factors.sample_size_weight
  min 1 (max 0 (consistencyContribution + outlierContribution + sampleSizeContribution))

/-- `EvaluationOrchestrator.determineReliability`
(evaluation-orchestrator.ts:366-374). -/
def determineReliabilityOrch (confidence consistency : ℚ) : String :=
  if 4/5 ≤ confidence ∧ 4/5 ≤ consistency then "high"
  else if 3/5 ≤ confidence ∧ 3/5 ≤ consistency then "medium"
  else "low"

/-- The `scores` block of `ConsolidatedResult`
(evaluation-orchestrator.ts:186-191); field names romanised from the
source's 업무능력 / 문장력 / 기본_태도 / 총점. -/
structure ConsolidatedScores where
  workCapability : ℚ
  writingSkill : ℚ
  basicAttitude : ℚ
  totalScore : ℚ
deriving DecidableEq

/-- The `validation` block of `ConsolidatedResult`
(evaluation-orchestrator.ts:192-197). -/
structure ValidationInfo where
  consistency : ℚ
  confidence : ℚ
  reliability : String
  outliers : List ℕ
deriving DecidableEq

/-- `ConsolidatedResult` (evaluation-orchestrator.ts:185-205); the
`evidence` and `metadata` blocks (timestamps, criteria version) carry no
claim-relevant content and are omitted. -/
structure ConsolidatedResult where
  scores : ConsolidatedScores
  validation : ValidationInfo
  providers : List ProviderResult
deriving DecidableEq

/-- One provider's branch of the `providers.map(async ...)` callback in
`EvaluationOrchestrator.executeParallelEvaluations`
(evaluation-orchestrator.ts:97-133): a successful evaluation becomes a
`success: true` record with the extracted scores, a thrown error is
caught and becomes a `success: false` record with empty scores and the
error message. -/
def runProvider (name : String) (outcome : Except String (List (String × ℚ))) :
    ProviderResult :=
  match outcome with
  | .ok scores => { name := name, scores := scores, success := true, error := none }
  | .error e => { name := name, scores := [], success := false, error := some e }

/-- `EvaluationOrchestrator.executeParallelEvaluations`
(evaluation-orchestrator.ts:90-155): every provider outcome (success or
failure) is collected in request order; the step throws if and only if
no provider succeeded.  `outcomes` pairs each provider's name with the
result of its `evaluateWithRetry` call. -/
def executeParallelEvaluations
    (outcomes : List (String × Except String (List (String × ℚ)))) :
    Except String (List ProviderResult) :=
  let results := outcomes.map (fun p => runProvider p.1 p.2)
  if (results.filter (·.success)).length = 0 then
    .error "모든 Provider에서 평가가 실패했습니다."
  else
    .ok results

/-- `EvaluationOrchestrator.consolidateResults`
(evaluation-orchestrator.ts:160-210): consolidate scores / consistency /
outliers / confidence from the successful results only, and return the
full per-provider list for audit. -/
def consolidateResults (factors : ConfidenceFactors) (multiplier : ℚ)
    (providerResults : List ProviderResult) : Except String ConsolidatedResult :=
  let successfulResults := providerResults.filter (·.success)
  if successfulResults.length = 0 then
    .error "통합할 성공적인 평가 결과가 없습니다."
  else
    let consistency := validateConsistencyOrch successfulResults
    let outliers := detectOutliersOrch multiplier successfulResults
    let confidence :=
      calculateConfidenceOrch factors consistency outliers.length successfulResults.length
    .ok
      { scores :=
          { workCapability := jsOr (consolidatedScore successfulResults "업무능력") 3
            writingSkill := jsOr (consolidatedScore successfulResults "문장력") 3
            basicAttitude := jsOr (consolidatedScore successfulResults "기본_태도") 3
            totalScore := jsOr (consolidatedScore successfulResults "total_score") 3 }
        validation :=
          { consistency := consistency
            confidence := confidence
            reliability := determineReliabilityOrch confidence consistency
            outliers := outliers }
        providers := providerResults }

/-- `EvaluationOrchestrator.evaluateChat` restricted to the dispatch and
consolidation steps (evaluation-orchestrator.ts:57-85): fan out, then
consolidate. -/
def evaluatePipeline (factors : ConfidenceFactors) (multiplier : ℚ)
    (outcomes : List (String × Except String (List (String × ℚ)))) :
    Except String ConsolidatedResult :=
  match executeParallelEvaluations outcomes with
  | .error e => .error e
  | .ok results => consolidateResults factors multiplier results

/-- `ConfidenceCalculator.calculateSampleSizeContribution`
(part_001:138-147): `0` for a non-positive count, otherwise
`Math.log(1 + Math.min(1, n / 5)) / Math.log(2)` with the optimal
provider count 5. -/
noncomputable def calculateSampleSizeContribution (totalResults : ℕ) : ℝ :=
  if totalResults = 0 then 0
  else
    let optimal : ℝ := 5
    let ratio : ℝ := min 1 ((totalResults : ℝ) / optimal)
    Real.log (1 + ratio) / Real.log 2

/-- The optional `additionalFactors` argument of
`ConfidenceCalculator.calculateConfidence` (part_001:21-26). -/
structure AdditionalFactors where
  responseTime : Option ℚ
  tokenUsage : Option ℚ
  errorRate : Option ℚ
  historicalPerformance : Option ℚ

/-- `ConfidenceCalculator.scoreResponseTime` (part_001:197-204). -/
def scoreResponseTime (responseTime : ℚ) : ℚ :=
  if responseTime < 1 then 1/2
  else if responseTime ≤ 10 then 1
  else if responseTime ≤ 30 then 4/5
  else if responseTime ≤ 60 then 3/5
  else 3/10

/-- `ConfidenceCalculator.scoreTokenUsage` (part_001:209-216). -/
def scoreTokenUsage (tokenUsage : ℚ) : ℚ :=
  if tokenUsage < 100 then 3/10
  else if tokenUsage ≤ 500 then 7/10
  else if tokenUsage ≤ 2000 then 1
  else if tokenUsage ≤ 4000 then 4/5
  else 1/2

/-- `ConfidenceCalculator.calculateAdditionalFactors` (part_001:152-192):
average the scores of the factors that are present and weight the
average by 10%; `0` when no factor is given. -/
def calculateAdditionalFactors (factors : Option AdditionalFactors) : ℚ :=
  match factors with
  | none => 0
  | some f =>
    let scores : List ℚ :=
      (f.responseTime.map scoreResponseTime).toList ++
      (f.tokenUsage.map scoreTokenUsage).toList ++
      (f.errorRate.map (fun er => max 0 (1 - er))).toList ++
      (f.historicalPerformance.map (fun hp => min 1 (max 0 hp))).toList
    if 0 < scores.length then (scores.sum / scores.length) * (1/10) else 0

/-- `ConfidenceCalculator.calculateConfidence` (part_001:17-77), final
confidence value (field `confidence` before the `toFixed(3)`
formatting): weighted consistency, outlier and sample-size components
plus the additional-factor adjustment, clamped to `[0, 1]`. -/
noncomputable def calculateConfidenceCC (factors : ConfidenceFactors)
    (consistency : ℝ) (outlierCount totalResults : ℕ)
    (additionalFactors : Option AdditionalFactors) : ℝ :=
  let consistencyComponent := min 1 consistency * (factors.consistency_weight : ℝ)
  let outlierRatio : ℝ :=
    if 0 < totalResults then (outlierCount : ℝ) / (totalResults : ℝ) else 0
  let outlierComponent := max 0 (1 - outlierRatio) * (factors.outlier_weight : ℝ)
  let sampleSizeComponent :=
    calculateSampleSizeContribution totalResults * (factors.sample_size_weight : ℝ)
  let additionalComponent := (calculateAdditionalFactors additionalFactors : ℝ)
  let baseConfidence := consistencyComponent + outlierComponent + sampleSizeComponent
  min 1 (max 0 (baseConfidence + additionalComponent))

/-- `ConfidenceCalculator.determineReliability` (part_001:345-353),
identical to `EvaluationOrchestrator.determineReliability`
(evaluation-orchestrator.ts:366-374), over the real-valued confidence. -/
noncomputable def determineReliabilityCC (confidence consistency : ℝ) : String :=
  if 4/5 ≤ confidence ∧ 4/5 ≤ consistency then "high"
  else if 3/5 ≤ confidence ∧ 3/5 ≤ consistency then "medium"
  else "low"

/-- `ThresholdConfig['consistency']`: target and minimum agreement
thresholds, loaded from external configuration. -/
structure ConsistencyConfig where
  target : ℚ
  minimum : ℚ

/-- `ConsistencyValidator.extractScoreValues` (part_001:768-773): the
numeric values of `key` across the *successful* results. -/
def extractScoreValues (results : List ProviderResult) (key : String) : List ℚ :=
  (results.filter (·.success)).filterMap (fun r => r.scores.lookup key)

/-- `ConsistencyValidator.extractScoreKeys` (part_001:755-763): every
distinct score key of a successful result. -/
def extractScoreKeys (results : List ProviderResult) : List String :=
  (((results.filter (·.success)).map (fun r => r.scores.map Prod.fst)).flatten).dedup

/-- The `consistency` field computed by
`ConsistencyValidator.calculateScoreConsistency` (part_001:570-601,
line 586): `Math.max(0, 1 - standardDeviation / 2.5)` where the standard
deviation is the square root of the population variance. -/
noncomputable def calculateScoreConsistency (values : List ℚ) : ℝ :=
  let standardDeviation : ℝ := Real.sqrt ((listVariance values : ℝ))
  max 0 (1 - standardDeviation / (5/2))

/-- `ConsistencyValidator.calculateOverallConsistency` (part_001:606-621)
composed with `analyzeScorewiseConsistency` (part_001:553-565): weighted
average of the per-dimension consistency scores over the keys with at
least 2 numeric values, weight 0.4 for `total_score` and 0.2 for every
other key. -/
noncomputable def calculateOverallConsistency (results : List ProviderResult) : ℝ :=
  let keys :=
    (extractScoreKeys results).filter (fun key =>
      2 ≤ (extractScoreValues results key).length)
  if keys.length = 0 then 0
  else
    let weight : String → ℚ := fun key => if key = "total_score" then 2/5 else 1/5
    let totalWeight : ℚ := (keys.map weight).sum
    let weightedSum : ℝ :=
      (keys.map (fun key =>
        calculateScoreConsistency (extractScoreValues results key) *
          ((weight key : ℚ) : ℝ))).sum
    if 0 < totalWeight then weightedSum / ((totalWeight : ℚ) : ℝ) else 0

/-- The observable part of the report returned by
`ConsistencyValidator.validateConsistency` (part_001:454-498):
the consistency value, the pass flag, and the `details.overall.status`
tag. -/
structure ConsistencyReport where
  consistency : ℝ
  isConsistent : Prop
  status : String

/-- `ConsistencyValidator.validateConsistency` (part_001:454-498): fewer
than 2 results yields the single-provider report (part_001:825-840,
consistency 1.0); at least 2 results but fewer than 2 successful ones
yields the insufficient-data report (part_001:845-860, consistency 0.0);
otherwise the weighted overall consistency with a PASS/FAIL status
against the configured minimum. -/
noncomputable def validateConsistencyCV (cfg : ConsistencyConfig)
    (results : List ProviderResult) : ConsistencyReport :=
  if results.length < 2 then
    { consistency := 1, isConsistent := True, status := "SINGLE_PROVIDER" }
  else if (results.filter (·.success)).length < 2 then
    { consistency := 0, isConsistent := False, status := "INSUFFICIENT_DATA" }
  else
    let overallConsistency := calculateOverallConsistency results
    let isConsistent := ((cfg.minimum : ℚ) : ℝ) ≤ overallConsistency
    { consistency := overallConsistency
      isConsistent := isConsistent
      status := if isConsistent then "PASS" else "FAIL" }

/-- Modelled from the spec's words for §4.5: the population variance in
`E[X²] - E[X]²` form, used as the independent reference formulation. -/
def specVariance (values : List ℚ) : ℚ :=
  (values.map (fun v => v ^ 2)).sum / values.length - (listMean values) ^ 2

/-- Modelled from the spec's words for §4.5: per-dimension consistency
`max(0, 1 - stddev / divisor)`, the standard deviation being the square
root of the population variance. -/
noncomputable def specDimensionConsistency (divisor : ℚ) (values : List ℚ) : ℝ :=
  max 0 (1 - Real.sqrt ((specVariance values : ℚ)) / ((divisor : ℚ) : ℝ))

lemma sum_sub_sq (c : ℚ) (l : List ℚ) :
    (l.map (fun v => (v - c) ^ 2)).sum =
      (l.map (fun v => v ^ 2)).sum - 2 * c * l.sum + l.length * c ^ 2 := by
  induction l with
  | nil => simp
  | cons x xs ih =>
    simp only [List.map_cons, List.sum_cons, ih, List.length_cons]
    push_cast
    ring

lemma specVariance_eq_listVariance (l : List ℚ) : specVariance l = listVariance l := by
  rcases eq_or_ne l [] with rfl | hne
  · simp [specVariance, listVariance, listMean]
  · have hn : ((l.length : ℚ)) ≠ 0 := by
      exact_mod_cast (List.length_pos.mpr hne).ne'
    simp only [specVariance, listVariance, listMean, sum_sub_sq]
    field_simp
    ring

lemma calculateQuartile_eq_interpolatedQuantile (l : List ℚ) (p : ℚ)
    (hpos : 0 ≤ ((l.length : ℚ) - 1) * p) :
    calculateQuartile l p = interpolatedQuantile l p := by
  simp only [calculateQuartile, interpolatedQuantile]
  set pos : ℚ := ((l.length : ℚ) - 1) * p with hposdef
  by_cases h : (⌊pos⌋ : ℚ) = pos
  · have hceil : ⌈pos⌉ = ⌊pos⌋ := by
      conv_lhs => rw [← h]
      exact Int.ceil_intCast _
    rw [if_pos hceil.symm]
    have hfrac : pos - (⌊pos⌋ : ℚ) = 0 := by rw [h]; ring
    rw [hfrac]
    ring
  · have hlt : (⌊pos⌋ : ℚ) < pos := lt_of_le_of_ne (Int.floor_le _) h
    have hceil : ⌈pos⌉ = ⌊pos⌋ + 1 := by
      apply le_antisymm
      · apply Int.ceil_le.mpr
        push_cast
        exact (Int.lt_floor_add_one pos).le
      · have h2 : (⌊pos⌋ : ℚ) < (⌈pos⌉ : ℚ) := lt_of_lt_of_le hlt (Int.le_ceil pos)
        have h3 : ⌊pos⌋ < ⌈pos⌉ := by exact_mod_cast h2
        omega
    have hne2 : ⌊pos⌋ ≠ ⌈pos⌉ := by omega
    rw [if_neg hne2]
    have h0 : 0 ≤ ⌊pos⌋ := Int.floor_nonneg.mpr hpos
    have htn : (⌈pos⌉).toNat = ⌊pos⌋.toNat + 1 := by omega
    rw [htn]
    ring

lemma classifyValues_outliers (lo hi : ℚ) :
    ∀ (l : List ℚ) (i : ℕ),
      (classifyValues lo hi i l).1 = l.filter (fun v => decide (v < lo ∨ hi < v)) := by
  intro l
  induction l with
  | nil => intro i; rfl
  | cons x xs ih =>
    intro i
    by_cases h : x < lo ∨ hi < x <;>
      simp [classifyValues, h, ih]

lemma classifyValues_filtered (lo hi : ℚ) :
    ∀ (l : List ℚ) (i : ℕ),
      (classifyValues lo hi i l).2.2 = l.filter (fun v => !decide (v < lo ∨ hi < v)) := by
  intro l
  induction l with
  | nil => intro i; rfl
  | cons x xs ih =>
    intro i
    simp only [classifyValues]
    by_cases h : x < lo ∨ hi < x
    · have hp : (!decide (x < lo ∨ hi < x)) = false := by simp [h]
      rw [if_pos h, List.filter_cons, hp]
      simpa using ih (i + 1)
    · have hp : (!decide (x < lo ∨ hi < x)) = true := by simp [h]
      rw [if_neg h, List.filter_cons, hp]
      simpa using ih (i + 1)

lemma classifyValues_indices (lo hi : ℚ) :
    ∀ (l pre : List ℚ),
      ((classifyValues lo hi pre.length l).2.1).map (fun j => (pre ++ l).getD j 0) =
        (classifyValues lo hi pre.length l).1 ∧
      ∀ j ∈ (classifyValues lo hi pre.length l).2.1, j < (pre ++ l).length := by
  intro l
  induction l with
  | nil =>
    intro pre
    exact ⟨rfl, by simp [classifyValues]⟩
  | cons x xs ih =>
    intro pre
    have hx : (pre ++ x :: xs).getD pre.length 0 = x := by
      rw [List.getD_eq_getElem?_getD, List.getElem?_append_right (le_refl pre.length)]
      simp
    have key := ih (pre ++ [x])
    rw [List.length_append, List.length_singleton, List.append_assoc,
      List.singleton_append] at key
    by_cases h : x < lo ∨ hi < x
    · constructor
      · simp only [classifyValues, if_pos h, List.map_cons, hx]
        rw [key.1]
      · intro j hj
        simp only [classifyValues, if_pos h, List.mem_cons] at hj
        rcases hj with rfl | hj
        · simp [List.length_append]
        · exact key.2 j hj
    · constructor
      · simp only [classifyValues, if_neg h]
        exact key.1
      · intro j hj
        simp only [classifyValues, if_neg h] at hj
        exact key.2 j hj

lemma classify_partition (lo hi : ℚ) (values : List ℚ) :
    (classifyValues lo hi 0 values).1.length + (classifyValues lo hi 0 values).2.2.length
        = values.length ∧
    (∀ v : ℚ, (classifyValues lo hi 0 values).1.count v +
        (classifyValues lo hi 0 values).2.2.count v = values.count v) ∧
    (classifyValues lo hi 0 values).1 =
      ((classifyValues lo hi 0 values).2.1).map (fun j => values.getD j 0) ∧
    (∀ j ∈ (classifyValues lo hi 0 values).2.1, j < values.length) ∧
    (classifyValues lo hi 0 values).1.Sublist values ∧
    (classifyValues lo hi 0 values).2.2.Sublist values := by
  have hperm := List.filter_append_perm (fun v => decide (v < lo ∨ hi < v)) values
  have hidx := classifyValues_indices lo hi values []
  simp only [List.length_nil, List.nil_append] at hidx
  refine ⟨?_, ?_, hidx.1.symm, hidx.2, ?_, ?_⟩
  · rw [classifyValues_outliers, classifyValues_filtered]
    have := hperm.length_eq
    rw [List.length_append] at this
    exact this
  · intro v
    rw [classifyValues_outliers, classifyValues_filtered]
    have := hperm.count_eq v
    rw [List.count_append] at this
    exact this
  · rw [classifyValues_outliers]; exact List.filter_sublist values
  · rw [classifyValues_filtered]; exact List.filter_sublist values

/-- The lower bound `Q1 - k*IQR` computed inside
`OutlierDetector.detectOutliers` (outlier-detector.ts:48). -/
def detectorLowerBound (cfg : OutlierConfig) (values : List ℚ) : ℚ :=
  let s := List.insertionSort (· ≤ ·) values
  let q1 := calculateQuartile s (1/4)
  let q3 := calculateQuartile s (3/4)
  q1 - cfg.multiplier * (q3 - q1)

/-- The upper bound `Q3 + k*IQR` computed inside
`OutlierDetector.detectOutliers` (outlier-detector.ts:49). -/
def detectorUpperBound (cfg : OutlierConfig) (values : List ℚ) : ℚ :=
  let s := List.insertionSort (· ≤ ·) values
  let q1 := calculateQuartile s (1/4)
  let q3 := calculateQuartile s (3/4)
  q3 + cfg.multiplier * (q3 - q1)

lemma detectOutliers_main (cfg : OutlierConfig) (values : List ℚ)
    (h : ¬ values.length < cfg.min_samples) :
    (detectOutliers cfg values).outliers =
      (classifyValues (detectorLowerBound cfg values) (detectorUpperBound cfg values) 0 values).1 ∧
    (detectOutliers cfg values).outlierIndices =
      (classifyValues (detectorLowerBound cfg values) (detectorUpperBound cfg values) 0 values).2.1 ∧
    (detectOutliers cfg values).filteredValues =
      (classifyValues (detectorLowerBound cfg values) (detectorUpperBound cfg values) 0 values).2.2 ∧
    (detectOutliers cfg values).lowerBound = detectorLowerBound cfg values ∧
    (detectOutliers cfg values).upperBound = detectorUpperBound cfg values ∧
    (detectOutliers cfg values).q1 = calculateQuartile (List.insertionSort (· ≤ ·) values) (1/4) ∧
    (detectOutliers cfg values).q3 = calculateQuartile (List.insertionSort (· ≤ ·) values) (3/4) := by
  refine ⟨?_, ?_, ?_, ?_, ?_, ?_, ?_⟩ <;>
    simp [detectOutliers, detectorLowerBound, detectorUpperBound, if_neg h]

lemma getD_mem (l : List ℚ) (i : ℕ) (h : i < l.length) : l.getD i 0 ∈ l := by
  rw [List.getD_eq_getElem?_getD, List.getElem?_eq_getElem h]
  exact List.getElem_mem h

lemma sorted_getD_mono (l : List ℚ) (hs : List.Sorted (· ≤ ·) l) (i j : ℕ)
    (hij : i ≤ j) (hj : j < l.length) : l.getD i 0 ≤ l.getD j 0 := by
  have hi : i < l.length := lt_of_le_of_lt hij hj
  rw [List.getD_eq_getElem?_getD, List.getElem?_eq_getElem hi,
    List.getD_eq_getElem?_getD, List.getElem?_eq_getElem hj]
  exact hs.rel_get_of_le (a := ⟨i, hi⟩) (b := ⟨j, hj⟩) hij

/-- C10 — For every configuration and input list, `OutlierDetector.detectOutliers`
leaves the input untouched (it classifies the original, unsorted list, so
both returned lists are order-preserving subselections of the input):
the lengths of `outliers` and `filteredValues` sum to the input length,
every input value lands in exactly one of them (counted with
multiplicity), each returned outlier index is the position of the paired
outlier in the original input, and both returned lists are sublists of
the input. -/
theorem claim_C10 (cfg : OutlierConfig) (values : List ℚ) :
    ((detectOutliers cfg values).outliers.length +
        (detectOutliers cfg values).filteredValues.length = values.length) ∧
    (∀ v : ℚ, (detectOutliers cfg values).outliers.count v +
        (detectOutliers cfg values).filteredValues.count v = values.count v) ∧
    ((detectOutliers cfg values).outliers =
      ((detectOutliers cfg values).outlierIndices).map (fun i => values.getD i 0)) ∧
    (∀ i ∈ (detectOutliers cfg values).outlierIndices, i < values.length) ∧
    (detectOutliers cfg values).outliers.Sublist values ∧
    (detectOutliers cfg values).filteredValues.Sublist values := by
  by_cases h : values.length < cfg.min_samples
  · refine ⟨?_, ?_, ?_, ?_, ?_, ?_⟩ <;>
      simp [detectOutliers, if_pos h, getEmptyResult]
  · obtain ⟨ho, hi, hf, _, _, _, _⟩ := detectOutliers_main cfg values h
    obtain ⟨p1, p2, p3, p4, p5, p6⟩ :=
      classify_partition (detectorLowerBound cfg values) (detectorUpperBound cfg values) values
    rw [ho, hi, hf]
    exact ⟨p1, p2, p3, p4, p5, p6⟩

/-- C3 — For every sample of at least `min_samples` values (and a sane,
nonempty sample), `OutlierDetector.detectOutliers` sorts the values,
takes `Q1`/`Q3` by linear interpolation at rank positions `(n-1)*0.25` /
`(n-1)*0.75` (stated through the independently written
`interpolatedQuantile`), sets `IQR = Q3 - Q1`, and classifies exactly the
values outside `[Q1 - k*IQR, Q3 + k*IQR]` as outliers, the rest as
inliers. -/
theorem claim_C3 (cfg : OutlierConfig) (values : List ℚ)
    (hmin : cfg.min_samples ≤ values.length) (hne : values ≠ []) :
    let sorted := List.insertionSort (· ≤ ·) values
    let q1 := interpolatedQuantile sorted (1/4)
    let q3 := interpolatedQuantile sorted (3/4)
    let iqr := q3 - q1
    let lo := q1 - cfg.multiplier * iqr
    let hi := q3 + cfg.multiplier * iqr
    (detectOutliers cfg values).q1 = q1 ∧
    (detectOutliers cfg values).q3 = q3 ∧
    (detectOutliers cfg values).lowerBound = lo ∧
    (detectOutliers cfg values).upperBound = hi ∧
    (detectOutliers cfg values).outliers =
      values.filter (fun v => decide (v < lo ∨ hi < v)) ∧
    (detectOutliers cfg values).filteredValues =
      values.filter (fun v => !decide (v < lo ∨ hi < v)) := by
  intro sorted q1 q3 iqr lo hi
  have hnl : ¬ values.length < cfg.min_samples := not_lt.mpr hmin
  have hlen : sorted.length = values.length := List.length_insertionSort _ _
  have hlen1 : 1 ≤ sorted.length := by
    rw [hlen]
    exact List.length_pos.mpr hne
  have hq1 : calculateQuartile sorted (1/4) = q1 := by
    apply calculateQuartile_eq_interpolatedQuantile
    have : (1 : ℚ) ≤ (sorted.length : ℚ) := by exact_mod_cast hlen1
    nlinarith
  have hq3 : calculateQuartile sorted (3/4) = q3 := by
    apply calculateQuartile_eq_interpolatedQuantile
    have : (1 : ℚ) ≤ (sorted.length : ℚ) := by exact_mod_cast hlen1
    nlinarith
  obtain ⟨ho, _, hf, hlo, hhi, hdq1, hdq3⟩ := detectOutliers_main cfg values hnl
  have hlo2 : detectorLowerBound cfg values = lo := by
    simp only [detectorLowerBound]
    rw [hq1, hq3]
  have hhi2 : detectorUpperBound cfg values = hi := by
    simp only [detectorUpperBound]
    rw [hq1, hq3]
  refine ⟨?_, ?_, ?_, ?_, ?_, ?_⟩
  · rw [hdq1, hq1]
  · rw [hdq3, hq3]
  · rw [hlo, hlo2]
  · rw [hhi, hhi2]
  · rw [ho, hlo2, hhi2, classifyValues_outliers]
  · rw [hf, hlo2, hhi2, classifyValues_filtered]

/-- Witness for C3 at the concrete sample `[1, 2, 3, 100]` with the
default configuration `k = 1.5`, `min_samples = 3`. -/
theorem claim_C3_witness :
    ((⟨3/2, 3⟩ : OutlierConfig).min_samples ≤ ([(1:ℚ), 2, 3, 100]).length) ∧
    (([(1:ℚ), 2, 3, 100]) ≠ []) ∧
    (let sorted := List.insertionSort (· ≤ ·) [(1:ℚ), 2, 3, 100]
     let q1 := interpolatedQuantile sorted (1/4)
     let q3 := interpolatedQuantile sorted (3/4)
     let iqr := q3 - q1
     let lo := q1 - (⟨3/2, 3⟩ : OutlierConfig).multiplier * iqr
     let hi := q3 + (⟨3/2, 3⟩ : OutlierConfig).multiplier * iqr
     (detectOutliers ⟨3/2, 3⟩ [(1:ℚ), 2, 3, 100]).q1 = q1 ∧
     (detectOutliers ⟨3/2, 3⟩ [(1:ℚ), 2, 3, 100]).q3 = q3 ∧
     (detectOutliers ⟨3/2, 3⟩ [(1:ℚ), 2, 3, 100]).lowerBound = lo ∧
     (detectOutliers ⟨3/2, 3⟩ [(1:ℚ), 2, 3, 100]).upperBound = hi ∧
     (detectOutliers ⟨3/2, 3⟩ [(1:ℚ), 2, 3, 100]).outliers =
       ([(1:ℚ), 2, 3, 100]).filter (fun v => decide (v < lo ∨ hi < v)) ∧
     (detectOutliers ⟨3/2, 3⟩ [(1:ℚ), 2, 3, 100]).filteredValues =
       ([(1:ℚ), 2, 3, 100]).filter (fun v => !decide (v < lo ∨ hi < v))) :=
  ⟨by decide, by decide, claim_C3 ⟨3/2, 3⟩ [(1:ℚ), 2, 3, 100] (by decide) (by decide)⟩

/-- C4 — For every sample of 3 or more numeric values, the inline IQR
filter of `EvaluationOrchestrator.consolidateScores` always retains at
least `Q1` itself, so the "all values are outliers" premise of the
spec's degenerate fallback is unsatisfiable there, and consolidation
returns the mean of the nonempty inlier set — a present (`some`),
well-defined value, never `NaN` and never an absent result.  The median
fallback branch (`values[Math.floor(n / 2)]`) exists verbatim in the
source but is unreachable. -/
theorem claim_C4 (values : List ℚ) (h3 : 3 ≤ values.length) :
    consolidationInliers (List.insertionSort (· ≤ ·) values) ≠ [] ∧
    consolidateValues values =
      some ((consolidationInliers (List.insertionSort (· ≤ ·) values)).sum /
        ((consolidationInliers (List.insertionSort (· ≤ ·) values)).length : ℚ)) := by
  set s := List.insertionSort (· ≤ ·) values with hs
  have hlen : s.length = values.length := List.length_insertionSort _ _
  have hsort : List.Sorted (· ≤ ·) s := List.sorted_insertionSort _ _
  have hn3 : 3 ≤ s.length := by omega
  have hq1lt : s.length / 4 < s.length := Nat.div_lt_self (by omega) (by omega)
  have hq3lt : 3 * s.length / 4 < s.length := by
    rw [Nat.div_lt_iff_lt_mul (by omega)]
    omega
  have hij : s.length / 4 ≤ 3 * s.length / 4 := Nat.div_le_div_right (by omega)
  have hq1q3 : s.getD (s.length / 4) 0 ≤ s.getD (3 * s.length / 4) 0 :=
    sorted_getD_mono s hsort _ _ hij hq3lt
  have hmem : s.getD (s.length / 4) 0 ∈ consolidationInliers s := by
    simp only [consolidationInliers]
    apply List.mem_filter.mpr
    refine ⟨getD_mem s _ hq1lt, ?_⟩
    simp only [decide_eq_true_eq]
    constructor
    · nlinarith
    · nlinarith
  have hne : consolidationInliers s ≠ [] := List.ne_nil_of_mem hmem
  refine ⟨hne, ?_⟩
  have hpos : 0 < (consolidationInliers s).length := List.length_pos.mpr hne
  simp only [consolidateValues, ← hs]
  rw [if_neg (by omega), if_neg (by omega), if_neg (by omega), if_pos hpos]

/-- Witness for C4 at the concrete sample `[1, 2, 3]`. -/
theorem claim_C4_witness :
    (3 ≤ ([(1:ℚ), 2, 3]).length) ∧
    (consolidationInliers (List.insertionSort (· ≤ ·) [(1:ℚ), 2, 3]) ≠ [] ∧
     consolidateValues [(1:ℚ), 2, 3] =
       some ((consolidationInliers (List.insertionSort (· ≤ ·) [(1:ℚ), 2, 3])).sum /
         ((consolidationInliers (List.insertionSort (· ≤ ·) [(1:ℚ), 2, 3])).length : ℚ))) :=
  ⟨by decide, claim_C4 [(1:ℚ), 2, 3] (by decide)⟩

/-- The three successful provider results of the spec's end-to-end
example, reporting `total_score` 4.6, 4.5 and 1.2. -/
def c1Results : List ProviderResult :=
  [ { name := "openai", scores := [("total_score", 23/5)], success := true, error := none },
    { name := "gemini", scores := [("total_score", 9/2)], success := true, error := none },
    { name := "claude", scores := [("total_score", 6/5)], success := true, error := none } ]

/-- C1 counterexample — on the spec's own example inputs
`{4.6, 4.5, 1.2}` with `k = 1.5`, the code flags nothing: the
orchestrator's inline detection returns no outlier index, the
`OutlierDetector` component returns no outlier either, and the
consolidated `total_score` is not 4.55 (it is the plain mean of all
three values). -/
theorem claim_C1_counterexample :
    detectOutliersOrch (3/2) c1Results = [] ∧
    (detectOutliers ⟨3/2, 3⟩ [(23:ℚ)/5, 9/2, 6/5]).outliers = [] ∧
    consolidatedScore c1Results "total_score" ≠ some (91/20) := by
  have hc1 : ⌈(1:ℚ)/2⌉ = 1 := by rw [Int.ceil_eq_iff]; norm_num
  have hc2 : ⌈(3:ℚ)/2⌉ = 2 := by rw [Int.ceil_eq_iff]; norm_num
  have t1 : Int.toNat 1 = 1 := rfl
  have t2 : Int.toNat 2 = 2 := rfl
  refine ⟨?_, ?_, ?_⟩
  · norm_num [detectOutliersOrch, c1Results, jsSelect, List.lookup,
      List.filterMap_cons, List.insertionSort, List.orderedInsert, List.range_succ]
  · norm_num [detectOutliers, calculateQuartile, classifyValues, hc1, hc2, t1, t2,
      List.insertionSort, List.orderedInsert]
  · norm_num [consolidatedScore, consolidateValues, consolidationInliers,
      scoresForKey, c1Results, List.lookup, List.filterMap_cons,
      List.insertionSort, List.orderedInsert]

/-- C1 (amended) — with the three reported `total_score` values
`{4.6, 4.5, 1.2}` and the default multiplier `k = 1.5`, outlier
detection flags no value (the IQR bounds contain all three inputs:
`[0.3, 7.1]` for the interpolating detector and `[-3.9, 9.7]` for the
orchestrator's floor-indexed variant), and the consolidated
`total_score` is the mean of all three values, `103/30 ≈ 3.4333`. -/
theorem claim_C1 :
    detectOutliersOrch (3/2) c1Results = [] ∧
    (detectOutliers ⟨3/2, 3⟩ [(23:ℚ)/5, 9/2, 6/5]).outliers = [] ∧
    (detectOutliers ⟨3/2, 3⟩ [(23:ℚ)/5, 9/2, 6/5]).lowerBound = 3/10 ∧
    (detectOutliers ⟨3/2, 3⟩ [(23:ℚ)/5, 9/2, 6/5]).upperBound = 71/10 ∧
    consolidatedScore c1Results "total_score" = some (103/30) := by
  have hc1 : ⌈(1:ℚ)/2⌉ = 1 := by rw [Int.ceil_eq_iff]; norm_num
  have hc2 : ⌈(3:ℚ)/2⌉ = 2 := by rw [Int.ceil_eq_iff]; norm_num
  have t1 : Int.toNat 1 = 1 := rfl
  have t2 : Int.toNat 2 = 2 := rfl
  refine ⟨?_, ?_, ?_, ?_, ?_⟩
  · norm_num [detectOutliersOrch, c1Results, jsSelect, List.lookup,
      List.filterMap_cons, List.insertionSort, List.orderedInsert, List.range_succ]
  · norm_num [detectOutliers, calculateQuartile, classifyValues, hc1, hc2, t1, t2,
      List.insertionSort, List.orderedInsert]
  · norm_num [detectOutliers, calculateQuartile, hc1, hc2, t1, t2,
      List.insertionSort, List.orderedInsert]
  · norm_num [detectOutliers, calculateQuartile, hc1, hc2, t1, t2,
      List.insertionSort, List.orderedInsert]
  · norm_num [consolidatedScore, consolidateValues, consolidationInliers,
      scoresForKey, c1Results, List.lookup, List.filterMap_cons,
      List.insertionSort, List.orderedInsert]

/-- C2 counterexample — at the sample `[1, 5]` (two numeric values,
population standard deviation 2) the per-dimension consistency computed
by `ConsistencyValidator.calculateScoreConsistency` is `1/5`, whereas
the spec's formula `max(0, 1 - stddev / 2.0)` gives `0`: the claim's
divisor 2.0 does not match the code. -/
theorem claim_C2_counterexample :
    calculateScoreConsistency [(1:ℚ), 5] = 1/5 ∧
    specDimensionConsistency 2 [(1:ℚ), 5] = 0 ∧
    calculateScoreConsistency [(1:ℚ), 5] ≠ specDimensionConsistency 2 [(1:ℚ), 5] := by
  have hvar : listVariance [(1:ℚ), 5] = 4 := by
    norm_num [listVariance, listMean]
  have hvar2 : specVariance [(1:ℚ), 5] = 4 := by
    rw [specVariance_eq_listVariance, hvar]
  have hsqrt : Real.sqrt (((4:ℚ) : ℝ)) = 2 := by
    rw [show (((4:ℚ)) : ℝ) = ((2:ℝ))^2 by norm_num,
      Real.sqrt_sq (by norm_num : (0:ℝ) ≤ 2)]
  have h1 : calculateScoreConsistency [(1:ℚ), 5] = 1/5 := by
    simp only [calculateScoreConsistency, hvar, hsqrt]
    rw [max_eq_right (by norm_num)]
    norm_num
  have h2 : specDimensionConsistency 2 [(1:ℚ), 5] = 0 := by
    simp only [specDimensionConsistency, hvar2, hsqrt]
    norm_num
  refine ⟨h1, h2, ?_⟩
  rw [h1, h2]
  norm_num

/-- C2 (amended) — for every dimension sample with at least 2 numeric
values, the per-dimension consistency score equals
`max(0, 1 - stddev / 2.5)`: the structure of the spec's formula is
right, but the divisor the code uses is 2.5 (half of the source's
"maximum score range" 5.0), not 2.0. -/
theorem claim_C2 (values : List ℚ) (h2 : 2 ≤ values.length) :
    calculateScoreConsistency values = specDimensionConsistency (5/2) values := by
  simp only [calculateScoreConsistency, specDimensionConsistency,
    specVariance_eq_listVariance]
  norm_num

/-- Witness for C2 at the concrete sample `[1, 5]`. -/
theorem claim_C2_witness :
    2 ≤ ([(1:ℚ), 5]).length ∧
    calculateScoreConsistency [(1:ℚ), 5] = specDimensionConsistency (5/2) [(1:ℚ), 5] :=
  ⟨by norm_num, claim_C2 [(1:ℚ), 5] (by norm_num)⟩

/-- A successful provider result used in the C9 scenario. -/
def c9success : ProviderResult :=
  { name := "openai", scores := [("total_score", 4)], success := true, error := none }

/-- A failed provider result used in the C9 scenario. -/
def c9failure : ProviderResult :=
  { name := "gemini", scores := [], success := false, error := some "timeout" }

/-- A consistency threshold configuration with the spec's default
target 0.7 and minimum 0.6. -/
def c9cfg : ConsistencyConfig := { target := 7/10, minimum := 3/5 }

/-- C9 counterexample — the input `[c9success, c9failure]` has fewer
than 2 *successful* results, yet `ConsistencyValidator.validateConsistency`
does not return the single-provider report with consistency 1.0: it
returns consistency 0.0 with status `INSUFFICIENT_DATA` (the
single-provider branch only triggers when the *total* result count is
below 2). -/
theorem claim_C9_counterexample :
    (validateConsistencyCV c9cfg [c9success, c9failure]).consistency = 0 ∧
    (validateConsistencyCV c9cfg [c9success, c9failure]).status = "INSUFFICIENT_DATA" ∧
    ((0:ℝ)) ≠ 1 := by
  have hlen : ¬ (([c9success, c9failure] : List ProviderResult).length < 2) := by
    norm_num
  have hsucc : (([c9success, c9failure] : List ProviderResult).filter (·.success)).length < 2 := by
    norm_num [c9success, c9failure, List.filter]
  refine ⟨?_, ?_, by norm_num⟩ <;>
    simp [validateConsistencyCV, if_neg hlen, if_pos hsucc]

/-- C9 (amended) — `ConsistencyValidator.validateConsistency` returns
the trivial single-provider report (consistency 1.0, status
`SINGLE_PROVIDER`) exactly when the whole input list has fewer than 2
entries; an input with 2 or more entries of which fewer than 2 are
successful instead yields the insufficient-data report (consistency
0.0, status `INSUFFICIENT_DATA`). -/
theorem claim_C9 (cfg : ConsistencyConfig) (results : List ProviderResult) :
    (results.length < 2 →
      (validateConsistencyCV cfg results).consistency = 1 ∧
      (validateConsistencyCV cfg results).status = "SINGLE_PROVIDER") ∧
    (2 ≤ results.length → (results.filter (·.success)).length < 2 →
      (validateConsistencyCV cfg results).consistency = 0 ∧
      (validateConsistencyCV cfg results).status = "INSUFFICIENT_DATA") := by
  constructor
  · intro h
    simp [validateConsistencyCV, if_pos h]
  · intro h1 h2
    simp [validateConsistencyCV, if_neg (not_lt.mpr h1), if_pos h2]

/-- Witness for C9 at the concrete single-entry input `[c9success]`. -/
theorem claim_C9_witness :
    (([c9success] : List ProviderResult).length < 2) ∧
    ((validateConsistencyCV c9cfg [c9success]).consistency = 1 ∧
     (validateConsistencyCV c9cfg [c9success]).status = "SINGLE_PROVIDER") :=
  ⟨by norm_num, (claim_C9 c9cfg [c9success]).1 (by norm_num)⟩

/-- C8 — The sample-size component of confidence (before weighting) is
`log(1 + min(1, n/5)) / log(2)` for every positive result count `n`
(optimal provider count 5), it reaches 1 exactly at `n = 5`, stays at 1
for every `n ≥ 5` (extra providers beyond 5 add nothing), and never
exceeds 1. -/
theorem claim_C8 :
    (∀ n : ℕ, 0 < n →
      calculateSampleSizeContribution n =
        Real.log (1 + min 1 ((n : ℝ) / 5)) / Real.log 2) ∧
    calculateSampleSizeContribution 5 = 1 ∧
    (∀ n : ℕ, 5 ≤ n → calculateSampleSizeContribution n = 1) ∧
    (∀ n : ℕ, calculateSampleSizeContribution n ≤ 1) := by
  have hlog2 : (0:ℝ) < Real.log 2 := Real.log_pos (by norm_num)
  have plateau : ∀ n : ℕ, 5 ≤ n → calculateSampleSizeContribution n = 1 := by
    intro n hn
    have hn0 : n ≠ 0 := by omega
    simp only [calculateSampleSizeContribution, if_neg hn0]
    have h5 : (1:ℝ) ≤ (n:ℝ) / 5 := by
      rw [le_div_iff (by norm_num : (0:ℝ) < 5)]
      have : (5:ℝ) ≤ (n:ℝ) := by exact_mod_cast hn
      linarith
    rw [min_eq_left h5, show (1:ℝ) + 1 = 2 by norm_num]
    exact div_self hlog2.ne'
  refine ⟨?_, plateau 5 (by norm_num), plateau, ?_⟩
  · intro n hn
    simp only [calculateSampleSizeContribution, if_neg (by omega : n ≠ 0)]
  · intro n
    by_cases hn : n = 0
    · simp [calculateSampleSizeContribution, hn]
    · simp only [calculateSampleSizeContribution, if_neg hn]
      rw [div_le_one hlog2]
      have hmin0 : (0:ℝ) ≤ min 1 ((n:ℝ) / 5) := le_min (by norm_num) (by positivity)
      have hmin1 : min 1 ((n:ℝ) / 5) ≤ 1 := min_le_left _ _
      calc Real.log (1 + min 1 ((n:ℝ) / 5)) ≤ Real.log 2 :=
        Real.log_le_log (by linarith) (by linarith)

/-- Witness for C8 at the concrete count `n = 3`. -/
theorem claim_C8_witness :
    0 < 3 ∧
    calculateSampleSizeContribution 3 =
      Real.log (1 + min 1 (((3:ℕ) : ℝ) / 5)) / Real.log 2 :=
  ⟨by norm_num, claim_C8.1 3 (by norm_num)⟩

/-- C5 — Monotone confidence in the outlier count: with the consistency
value, the total result count, the (nonnegative) outlier weight and the
optional additional factors all held fixed, increasing the outlier count
never increases the confidence returned by
`ConfidenceCalculator.calculateConfidence`, nor the one returned by
`EvaluationOrchestrator.calculateConfidence`. -/
theorem claim_C5 :
    (∀ (f : ConfidenceFactors) (c : ℝ) (oc₁ oc₂ n : ℕ) (af : Option AdditionalFactors),
      0 ≤ f.outlier_weight → oc₁ ≤ oc₂ →
      calculateConfidenceCC f c oc₂ n af ≤ calculateConfidenceCC f c oc₁ n af) ∧
    (∀ (f : ConfidenceFactors) (c : ℚ) (oc₁ oc₂ n : ℕ),
      0 ≤ f.outlier_weight → oc₁ ≤ oc₂ → 0 < n →
      calculateConfidenceOrch f c oc₂ n ≤ calculateConfidenceOrch f c oc₁ n) := by
  constructor
  · intro f c oc₁ oc₂ n af hw hoc
    simp only [calculateConfidenceCC]
    by_cases hn : 0 < n
    · simp only [if_pos hn]
      have hnr : (0:ℝ) < (n:ℝ) := by exact_mod_cast hn
      have hr : ((oc₁:ℝ) / (n:ℝ)) ≤ ((oc₂:ℝ) / (n:ℝ)) :=
        (div_le_div_right hnr).mpr (by exact_mod_cast hoc)
      have hw2 : (0:ℝ) ≤ (f.outlier_weight : ℝ) := by exact_mod_cast hw
      have houter :
          max 0 (1 - (oc₂:ℝ) / (n:ℝ)) * (f.outlier_weight : ℝ) ≤
            max 0 (1 - (oc₁:ℝ) / (n:ℝ)) * (f.outlier_weight : ℝ) :=
        mul_le_mul_of_nonneg_right (max_le_max le_rfl (by linarith)) hw2
      apply min_le_min le_rfl
      apply max_le_max le_rfl
      linarith [houter]
    · simp only [if_neg hn]
      exact le_refl _
  · intro f c oc₁ oc₂ n hw hoc hn
    simp only [calculateConfidenceOrch]
    have hnr : (0:ℚ) < (n:ℚ) := by exact_mod_cast hn
    have hr : ((oc₁:ℚ) / (n:ℚ)) ≤ ((oc₂:ℚ) / (n:ℚ)) :=
      (div_le_div_right hnr).mpr (by exact_mod_cast hoc)
    have houter :
        max 0 (1 - (oc₂:ℚ) / (n:ℚ)) * f.outlier_weight ≤
          max 0 (1 - (oc₁:ℚ) / (n:ℚ)) * f.outlier_weight :=
      mul_le_mul_of_nonneg_right (max_le_max le_rfl (by linarith)) hw
    apply min_le_min le_rfl
    apply max_le_max le_rfl
    linarith [houter]

/-- Witness for C5: with weights (0.4, 0.4, 0.2), consistency 0.9 and
3 results, raising the outlier count from 1 to 2 does not raise the
confidence. -/
theorem claim_C5_witness :
    ((0:ℚ) ≤ (⟨2/5, 2/5, 1/5⟩ : ConfidenceFactors).outlier_weight) ∧ 1 ≤ 2 ∧
    calculateConfidenceCC ⟨2/5, 2/5, 1/5⟩ ((9:ℝ)/10) 2 3 none ≤
      calculateConfidenceCC ⟨2/5, 2/5, 1/5⟩ ((9:ℝ)/10) 1 3 none :=
  ⟨by norm_num, by norm_num,
    claim_C5.1 ⟨2/5, 2/5, 1/5⟩ ((9:ℝ)/10) 1 2 3 none (by norm_num) (by norm_num)⟩

/-- C6 — Confidence clamp and reliability classification: both
confidence calculators always return a value in `[0, 1]`, and both
reliability functions classify `high` exactly when confidence ≥ 0.8 and
consistency ≥ 0.8, `medium` exactly when that fails but both are ≥ 0.6,
and `low` otherwise. -/
theorem claim_C6 :
    (∀ (f : ConfidenceFactors) (c : ℝ) (oc n : ℕ) (af : Option AdditionalFactors),
      0 ≤ calculateConfidenceCC f c oc n af ∧ calculateConfidenceCC f c oc n af ≤ 1) ∧
    (∀ (f : ConfidenceFactors) (c : ℚ) (oc n : ℕ),
      0 ≤ calculateConfidenceOrch f c oc n ∧ calculateConfidenceOrch f c oc n ≤ 1) ∧
    (∀ confidence consistency : ℝ,
      (determineReliabilityCC confidence consistency = "high" ↔
        4/5 ≤ confidence ∧ 4/5 ≤ consistency) ∧
      (determineReliabilityCC confidence consistency = "medium" ↔
        ¬(4/5 ≤ confidence ∧ 4/5 ≤ consistency) ∧
          (3/5 ≤ confidence ∧ 3/5 ≤ consistency)) ∧
      (determineReliabilityCC confidence consistency = "low" ↔
        ¬(4/5 ≤ confidence ∧ 4/5 ≤ consistency) ∧
          ¬(3/5 ≤ confidence ∧ 3/5 ≤ consistency))) ∧
    (∀ confidence consistency : ℚ,
      (determineReliabilityOrch confidence consistency = "high" ↔
        4/5 ≤ confidence ∧ 4/5 ≤ consistency) ∧
      (determineReliabilityOrch confidence consistency = "medium" ↔
        ¬(4/5 ≤ confidence ∧ 4/5 ≤ consistency) ∧
          (3/5 ≤ confidence ∧ 3/5 ≤ consistency)) ∧
      (determineReliabilityOrch confidence consistency = "low" ↔
        ¬(4/5 ≤ confidence ∧ 4/5 ≤ consistency) ∧
          ¬(3/5 ≤ confidence ∧ 3/5 ≤ consistency))) := by
  refine ⟨?_, ?_, ?_, ?_⟩
  · intro f c oc n af
    simp only [calculateConfidenceCC]
    exact ⟨le_min (by norm_num) (le_max_left 0 _), min_le_left _ _⟩
  · intro f c oc n
    simp only [calculateConfidenceOrch]
    exact ⟨le_min (by norm_num) (le_max_left 0 _), min_le_left _ _⟩
  · intro confidence consistency
    by_cases h1 : (4:ℝ)/5 ≤ confidence ∧ 4/5 ≤ consistency <;>
      by_cases h2 : (3:ℝ)/5 ≤ confidence ∧ 3/5 ≤ consistency <;>
        simp [determineReliabilityCC, h1, h2]
  · intro confidence consistency
    by_cases h1 : (4:ℚ)/5 ≤ confidence ∧ 4/5 ≤ consistency <;>
      by_cases h2 : (3:ℚ)/5 ≤ confidence ∧ 3/5 ≤ consistency <;>
        simp [determineReliabilityOrch, h1, h2]

lemma runProvider_success (name : String) (o : Except String (List (String × ℚ))) :
    (runProvider name o).success = o.isOk := by
  cases o <;> rfl

lemma allFailed_iff (outcomes : List (String × Except String (List (String × ℚ)))) :
    ((outcomes.map (fun p => runProvider p.1 p.2)).filter (·.success)).length = 0 ↔
      ∀ o ∈ outcomes, (o.2).isOk = false := by
  rw [List.length_eq_zero, List.filter_eq_nil_iff]
  constructor
  · intro h o ho
    have := h (runProvider o.1 o.2) (List.mem_map.mpr ⟨o, ho, rfl⟩)
    rw [runProvider_success] at this
    simpa using this
  · intro h a ha
    obtain ⟨o, ho, rfl⟩ := List.mem_map.mp ha
    rw [runProvider_success, h o ho]
    simp

/-- C7 — Partial-failure tolerance and total-failure propagation: the
dispatch step raises an error exactly when no provider outcome is a
success; with at least one success the pipeline returns a
`ConsolidatedResult` whose per-provider audit list is the full outcome
list — every failed provider appears in it with `success = false` and
its error message — and whose scores/validation are computed from the
successful results only: appending one more failing provider changes
the audit list but neither the scores nor the validation block. -/
theorem claim_C7 (factors : ConfidenceFactors) (multiplier : ℚ)
    (outcomes : List (String × Except String (List (String × ℚ)))) :
    ((∃ e, executeParallelEvaluations outcomes = .error e) ↔
      ∀ o ∈ outcomes, (o.2).isOk = false) ∧
    (∀ o ∈ outcomes, (o.2).isOk = true →
      ∃ cr, evaluatePipeline factors multiplier outcomes = .ok cr ∧
        cr.providers = outcomes.map (fun p => runProvider p.1 p.2) ∧
        ∀ p ∈ outcomes, ∀ e, p.2 = .error e →
          ({ name := p.1, scores := [], success := false, error := some e } :
            ProviderResult) ∈ cr.providers) ∧
    (∀ name e cr cr',
      evaluatePipeline factors multiplier outcomes = .ok cr →
      evaluatePipeline factors multiplier (outcomes ++ [(name, .error e)]) = .ok cr' →
      cr'.scores = cr.scores ∧ cr'.validation = cr.validation ∧
      cr'.providers = cr.providers ++
        [{ name := name, scores := [], success := false, error := some e }]) := by
  set results := outcomes.map (fun p => runProvider p.1 p.2) with hres
  by_cases hz : (results.filter (·.success)).length = 0
  · -- total failure: the dispatch step raises
    have hexe : executeParallelEvaluations outcomes =
        .error "모든 Provider에서 평가가 실패했습니다." := by
      simp only [executeParallelEvaluations, ← hres]
      rw [if_pos hz]
    refine ⟨⟨fun _ => (allFailed_iff outcomes).mp hz, fun _ => ⟨_, hexe⟩⟩, ?_, ?_⟩
    · intro o ho hok
      exfalso
      have hfail := (allFailed_iff outcomes).mp hz o ho
      rw [hok] at hfail
      exact Bool.noConfusion hfail
    · intro name e cr cr' hcr _
      exfalso
      simp only [evaluatePipeline, hexe] at hcr
      exact Except.noConfusion hcr
  · -- at least one success: the pipeline consolidates
    have hexe : executeParallelEvaluations outcomes = .ok results := by
      simp only [executeParallelEvaluations, ← hres]
      rw [if_neg hz]
    have hcons : evaluatePipeline factors multiplier outcomes =
        consolidateResults factors multiplier results := by
      simp only [evaluatePipeline, hexe]
    have hok : consolidateResults factors multiplier results =
        .ok
          { scores :=
              { workCapability :=
                  jsOr (consolidatedScore (results.filter (·.success)) "업무능력") 3
                writingSkill :=
                  jsOr (consolidatedScore (results.filter (·.success)) "문장력") 3
                basicAttitude :=
                  jsOr (consolidatedScore (results.filter (·.success)) "기본_태도") 3
                totalScore :=
                  jsOr (consolidatedScore (results.filter (·.success)) "total_score") 3 }
            validation :=
              { consistency := validateConsistencyOrch (results.filter (·.success))
                confidence :=
                  calculateConfidenceOrch factors
                    (validateConsistencyOrch (results.filter (·.success)))
                    (detectOutliersOrch multiplier (results.filter (·.success))).length
                    (results.filter (·.success)).length
                reliability :=
                  determineReliabilityOrch
                    (calculateConfidenceOrch factors
                      (validateConsistencyOrch (results.filter (·.success)))
                      (detectOutliersOrch multiplier (results.filter (·.success))).length
                      (results.filter (·.success)).length)
                    (validateConsistencyOrch (results.filter (·.success)))
                outliers := detectOutliersOrch multiplier (results.filter (·.success)) }
            providers := results } := by
      simp only [consolidateResults]
      rw [if_neg hz]
    refine ⟨?_, ?_, ?_⟩
    · constructor
      · rintro ⟨e, he⟩
        rw [hexe] at he
        exact absurd he (by simp)
      · intro hall
        exact absurd ((allFailed_iff outcomes).mpr hall) hz
    · intro o ho _
      obtain ⟨cr, hcr⟩ : ∃ cr, evaluatePipeline factors multiplier outcomes = .ok cr :=
        ⟨_, by rw [hcons, hok]⟩
      have hprov : cr.providers = results := by
        rw [hcons, hok] at hcr
        injection hcr with h
        rw [← h]
      refine ⟨cr, hcr, hprov, ?_⟩
      intro p hp e hpe
      rw [hprov, hres]
      apply List.mem_map.mpr
      refine ⟨p, hp, ?_⟩
      rw [hpe]
      rfl
    · intro name e cr cr' hcr hcr'
      rw [hcons, hok] at hcr
      injection hcr with hcr
      -- the run with one extra failing provider
      have hmap' : (outcomes ++
            [(name, (Except.error e : Except String (List (String × ℚ))))]).map
            (fun p => runProvider p.1 p.2) =
          results ++
            [({ name := name, scores := [], success := false, error := some e } :
              ProviderResult)] := by
        rw [hres, List.map_append]
        rfl
      have hfilter' :
          ((results ++
            [({ name := name, scores := [], success := false, error := some e } :
              ProviderResult)]).filter
              (·.success)) = results.filter (·.success) := by
        rw [List.filter_append]
        simp
      have hexe' : executeParallelEvaluations (outcomes ++ [(name, .error e)]) =
          .ok (results ++
            [({ name := name, scores := [], success := false, error := some e } :
              ProviderResult)]) := by
        simp only [executeParallelEvaluations, hmap']
        rw [hfilter']
        rw [if_neg hz]
      have hcons' : evaluatePipeline factors multiplier (outcomes ++ [(name, .error e)]) =
          consolidateResults factors multiplier
            (results ++
              [({ name := name, scores := [], success := false, error := some e } :
                ProviderResult)]) := by
        simp only [evaluatePipeline, hexe']
      rw [hcons'] at hcr'
      simp only [consolidateResults, hfilter'] at hcr'
      rw [if_neg hz] at hcr'
      injection hcr' with hcr'
      rw [← hcr, ← hcr']
      exact ⟨rfl, rfl, rfl⟩

/-- The two provider outcomes of the C7 scenario: one success, one
deterministic failure. -/
def c7Outcomes : List (String × Except String (List (String × ℚ))) :=
  [("openai", Except.ok [("total_score", 4)]),
   ("gemini", Except.error "HTTP 500")]

/-- Witness for C7: with one success and one failure the pipeline
returns a consolidated result whose audit list is the full outcome list,
the failed provider appearing with `success = false` and its error. -/
theorem claim_C7_witness :
    ∃ cr, evaluatePipeline ⟨2/5, 2/5, 1/5⟩ (3/2) c7Outcomes = .ok cr ∧
      cr.providers = c7Outcomes.map (fun p => runProvider p.1 p.2) ∧
      ∀ p ∈ c7Outcomes, ∀ e, p.2 = .error e →
        ({ name := p.1, scores := [], success := false, error := some e } :
          ProviderResult) ∈ cr.providers :=
  (claim_C7 ⟨2/5, 2/5, 1/5⟩ (3/2) c7Outcomes).2.1
    ("openai", Except.ok [("total_score", 4)])
    (by simp [c7Outcomes]) rfl

/-- Witness for C6: the clamp conjunct applied at concrete inputs. -/
theorem claim_C6_witness :
    0 ≤ calculateConfidenceOrch ⟨2/5, 2/5, 1/5⟩ (9/10) 1 3 ∧
    calculateConfidenceOrch ⟨2/5, 2/5, 1/5⟩ (9/10) 1 3 ≤ 1 :=
  claim_C6.2.1 ⟨2/5, 2/5, 1/5⟩ (9/10) 1 3

/-- Witness for C10: the length-partition conjunct applied at a concrete
sample. -/
theorem claim_C10_witness :
    (detectOutliers ⟨3/2, 3⟩ [(1:ℚ), 2, 3]).outliers.length +
      (detectOutliers ⟨3/2, 3⟩ [(1:ℚ), 2, 3]).filteredValues.length = 3 :=
  (claim_C10 ⟨3/2, 3⟩ [(1:ℚ), 2, 3]).1
